import Mathlib

/-!
A shallow embedding of the conversation-orchestration core of the clinic
agent repository, together with theorems settling the specification claims.

The embedding covers:
* `app/core/context.py`   — the Redis-backed session store (`ContextManager`),
  modelled as a function map from session ids to sessions; TTL bookkeeping is
  not modelled (time plays no role in any claim, and expiry is observationally
  identical to absence).
* `app/core/intent.py`    — the `IntentType` enumeration and the
  payload-validation logic of `recognize_intent` (lines 97-118); the language
  model call itself is an external collaborator, its outcome is an input.
* `app/core/orchestrator.py` — `process_message`, `_extract_patient_name`
  and `_handle_intent`; every backend call is an input supplied through an
  `Env` record of call outcomes, and the fact/action assembly is translated
  branch by branch.
* `app/integrations/backend_api.py` — `get_patient_test_results`
  (lines 353-408), the keyword-based derived view over medical records.
* `app/api/routes.py` / `app/models/responses.py` — the transport-boundary
  projection of the orchestrator result into `ChatResponse` (lines 37-41).

Python dictionaries are modelled as insertion-ordered association lists with
overwrite-in-place (`setKey`); Python truthiness of optional strings is
`pyTruthy`; `str(None)` is `pyStr`.
-/

namespace ClinicAgent

/-- The closed intent enumeration of `app/core/intent.py`, class `IntentType`. -/
inductive IntentType where
  | doctor_patient_info
  | doctor_appointment_schedule
  | doctor_missed_appointments
  | doctor_test_results
  | patient_appointment_info
  | patient_medication_info
  | patient_test_results
  | patient_schedule_appointment
  | greeting
  | farewell
  | thanks
  | help
  | unknown
deriving DecidableEq, Repr

/-- The `IntentType(intent)` enum constructor: maps the wire string to the
enumeration member, or fails (Python raises `ValueError`, here `none`). -/
def IntentType.ofString? (s : String) : Option IntentType :=
  if s = "doctor_patient_info" then some .doctor_patient_info
  else if s = "doctor_appointment_schedule" then some .doctor_appointment_schedule
  else if s = "doctor_missed_appointments" then some .doctor_missed_appointments
  else if s = "doctor_test_results" then some .doctor_test_results
  else if s = "patient_appointment_info" then some .patient_appointment_info
  else if s = "patient_medication_info" then some .patient_medication_info
  else if s = "patient_test_results" then some .patient_test_results
  else if s = "patient_schedule_appointment" then some .patient_schedule_appointment
  else if s = "greeting" then some .greeting
  else if s = "farewell" then some .farewell
  else if s = "thanks" then some .thanks
  else if s = "help" then some .help
  else if s = "unknown" then some .unknown
  else none

/-- Python `str(x)` on an optional string: `None` renders as `"None"`. -/
def pyStr : Option String → String
  | none => "None"
  | some s => s

/-- Python truthiness of an optional string: `None` and `""` are falsy. -/
def pyTruthy : Option String → Bool
  | none => false
  | some s => !s.isEmpty

/-- A patient record as consumed by the orchestrator: only the fields it
reads (`id`, `first_name`, `last_name`) are modelled; `get` on a missing
field is `none`. -/
structure Patient where
  id : Option String
  first_name : Option String
  last_name : Option String
deriving DecidableEq, Repr

/-- A doctor record as consumed by the orchestrator and by
`get_patient_test_results`. -/
structure Doctor where
  id : Option String
  first_name : Option String
  last_name : Option String
  specialty : Option String
deriving DecidableEq, Repr

/-- The per-doctor entry built by the `patient_schedule_appointment` handler
(`orchestrator.py` lines 294-299). -/
structure DoctorEntry where
  id : Option String
  name : String
  specialty : String
deriving DecidableEq, Repr

/-- An appointment as consumed by the `patient_appointment_info` handler:
the fields the handler reads or writes, plus the identifying fields backend
appointments carry. -/
structure Appointment where
  id : Option String
  patient_id : Option String
  doctor_id : Option String
  date_time : Option String
  status : Option String
  doctor_name : Option String
  doctor_specialty : Option String
deriving DecidableEq, Repr

/-- A medical record as scanned by `get_patient_test_results`
(`backend_api.py` lines 377-403). -/
structure MedicalRecord where
  diagnosis : Option String
  treatment : Option String
  notes : Option String
  visit_date : Option String
  doctor_id : Option String
deriving DecidableEq, Repr

/-- The nested `results` payload of a projected test result. -/
structure TestResultDetails where
  treatment : Option String
  notes : Option String
deriving DecidableEq, Repr

/-- The normalized test-result shape built at `backend_api.py`
lines 395-403. -/
structure TestResult where
  date : Option String
  doctor : String
  diagnosis : Option String
  results : TestResultDetails
deriving DecidableEq, Repr

/-- A classifier-extracted parameter value: a possibly-null string slot, or
the list of matched patients injected by the name-resolution step. -/
inductive PVal where
  | pstr (v : Option String)
  | plist (l : List Patient)
deriving DecidableEq, Repr

/-- The `parameters` dictionary of a classification result. -/
abbrev Params := List (String × PVal)

/-- A value stored in session metadata (`last_intent` or
`intent_parameters`, `orchestrator.py` lines 70-71). -/
inductive MetaVal where
  | intentV (i : IntentType)
  | paramsV (p : Params)
deriving DecidableEq, Repr

/-- One history entry, as built at `context.py` lines 77-81. -/
structure Msg where
  role : String
  content : String
  timestamp : String
deriving DecidableEq, Repr

/-- The per-session record stored in Redis (`context.py` lines 25-31). -/
structure Session where
  user_id : String
  user_type : String
  created_at : String
  history : List Msg
  metadata : List (String × MetaVal)
deriving DecidableEq, Repr

/-- The session store: Redis keyed by session id, modelled as a function
map.  A `none` entry covers both a never-created and an expired session. -/
def Store := String → Option Session

/-- Point update of the store (a Redis `setex`). -/
def Store.set (store : Store) (sid : String) (s : Session) : Store :=
  fun k => if k = sid then some s else store k

/-- ContextManager.create_session (`context.py` lines 21-40): allocates the
next fresh id (the uuid4 draw is the `fresh` input) and stores an empty
session. -/
def create_session (store : Store) (fresh user_id user_type now : String) :
    String × Store :=
  ( fresh,
    Store.set store fresh
      { user_id := user_id, user_type := user_type, created_at := now,
        history := [], metadata := [] } )

/-- ContextManager.get_session (`context.py` lines 42-51).  The TTL refresh
on read has no observable effect in this timeless model. -/
def get_session (store : Store) (session_id : String) : Option Session :=
  store session_id

/-- ContextManager.update_session (`context.py` lines 53-66): fails without
writing when the session does not exist. -/
def update_session (store : Store) (session_id : String) (data : Session) :
    Bool × Store :=
  if (store session_id).isSome then (true, Store.set store session_id data)
  else (false, store)

/-- The append-and-trim step of add_message_to_history (`context.py`
lines 83-87): append, then keep the last 20 entries. -/
def addMsg (h : List Msg) (m : Msg) : List Msg :=
  let h2 := h ++ [m]
  if h2.length > 20 then h2.drop (h2.length - 20) else h2

/-- ContextManager.add_message_to_history (`context.py` lines 68-90). -/
def add_message_to_history (store : Store) (session_id role content now : String) :
    Bool × Store :=
  match get_session store session_id with
  | none => (false, store)
  | some s =>
    let h2 := addMsg s.history (Msg.mk role content now)
    update_session store session_id { s with history := h2 }

/-- ContextManager.get_history (`context.py` lines 92-98): a missing session
yields the empty list, not an error. -/
def get_history (store : Store) (session_id : String) : List Msg :=
  match get_session store session_id with
  | none => []
  | some s => s.history

/-- ContextManager.set_metadata (`context.py` lines 100-107). -/
def set_metadata (store : Store) (session_id key : String) (v : MetaVal) :
    Bool × Store :=
  match get_session store session_id with
  | none => (false, store)
  | some s =>
    update_session store session_id
      { s with metadata :=
          if (s.metadata.lookup key).isSome then
            s.metadata.map (fun kv => if kv.1 = key then (key, v) else kv)
          else s.metadata ++ [(key, v)] }

/-- Iterated add_message_to_history for one session: the store after a whole
sequence of appended messages. -/
def appendAll (store : Store) (sid : String) (msgs : List Msg) : Store :=
  msgs.foldl
    (fun st m => (add_message_to_history st sid m.role m.content m.timestamp).2)
    store

/-- The last `n` entries of a list, in order (Python `l[-n:]`). -/
def lastN (n : Nat) (l : List α) : List α := l.drop (l.length - n)

/-- The outcome of the classification call inside recognize_intent
(`intent.py` lines 97-102): the `llm.ainvoke` call can raise (the call sits
outside the try block), the returned content can fail to parse as a JSON
object (caught by the except at line 116), or it parses to an object whose
`intent` and `parameters` fields may each be missing. -/
inductive LLMClassification where
  | callError (e : String)
  | badPayload (e : String)
  | payload (intent : Option String) (parameters : Option Params)
deriving DecidableEq, Repr

/-- IntentRecognizer.recognize_intent, validation part (`intent.py`
lines 97-118): a missing intent defaults to the string `"unknown"`, a string
outside the enumeration maps to `IntentType.UNKNOWN`, a malformed payload
degrades to `(UNKNOWN, empty)`, and an exception from the call itself
propagates, since the try block begins only after the call. -/
def recognize_intent (outcome : LLMClassification) :
    Except String (IntentType × Params) :=
  match outcome with
  | .callError e => .error e
  | .badPayload _ => .ok (.unknown, [])
  | .payload intent parameters =>
    let intentStr := intent.getD "unknown"
    let params := parameters.getD []
    match IntentType.ofString? intentStr with
    | some t => .ok (t, params)
    | none => .ok (.unknown, params)

/-- Dictionary write with Python semantics: overwrite in place when the key
exists, append otherwise. -/
def setKey (l : List (String × α)) (k : String) (v : α) : List (String × α) :=
  if (l.lookup k).isSome then
    l.map (fun kv => if kv.1 = k then (k, v) else kv)
  else l ++ [(k, v)]

/-- Substring search over character lists, returning the first index
(Python `str.find` restricted to the found case). -/
def findSubAux (needle : List Char) : List Char → Nat → Option Nat
  | [], i => if needle.isPrefixOf [] then some i else none
  | c :: t, i =>
    if needle.isPrefixOf (c :: t) then some i else findSubAux needle t (i + 1)

/-- Python `needle in hay` substring test. -/
def strContains (hay needle : List Char) : Bool :=
  (findSubAux needle hay 0).isSome

/-- Python `str.lower()` (ASCII-adequate for this code base). -/
def pyLower (s : String) : String := String.mk (s.data.map Char.toLower)

/-- Python `str.strip()`. -/
def pyStrip (l : List Char) : List Char :=
  ((l.dropWhile Char.isWhitespace).reverse.dropWhile Char.isWhitespace).reverse

/-- Worker for `pySplit`: accumulates the current word reversed. -/
def pySplitAux (cur : List Char) (l : List Char) : List String :=
  match l with
  | [] => if cur.isEmpty then [] else [String.mk cur.reverse]
  | c :: rest =>
    if c.isWhitespace then
      if cur.isEmpty then pySplitAux [] rest
      else String.mk cur.reverse :: pySplitAux [] rest
    else pySplitAux (c :: cur) rest

/-- Python `str.split()` with no arguments: split on whitespace runs,
discarding empty words. -/
def pySplit (l : List Char) : List String := pySplitAux [] l

/-- The indicator phrases of Orchestrator._extract_patient_name
(`orchestrator.py` lines 95-103), tried in order. -/
def nameIndicators : List String :=
  [ "patient information for ", "information about ", "show me ",
    "tell me about ", "what about ", "patient ", "info for " ]

/-- One pass of the indicator loop (`orchestrator.py` lines 105-115): on a
hit, take the next one or two words after the indicator; on an empty
remainder, fall through to the next indicator. -/
def extractFromIndicators (inds : List String) (msg : List Char) : Option String :=
  match inds with
  | [] => none
  | ind :: rest =>
    match findSubAux ind.data msg 0 with
    | none => extractFromIndicators rest msg
    | some i =>
      let remaining := pyStrip (msg.drop (i + ind.length))
      match pySplit remaining with
      | [] => extractFromIndicators rest msg
      | [w] => some w
      | w1 :: w2 :: _ => some (w1 ++ " " ++ w2)

/-- Orchestrator._extract_patient_name (`orchestrator.py` lines 89-117). -/
def extract_patient_name (message : String) : Option String :=
  extractFromIndicators nameIndicators (pyLower message).data

/-- Truthiness of a looked-up parameter value (Python `if patient_id:` on a
dictionary `get` result). -/
def pvalTruthy : Option PVal → Bool
  | none => false
  | some (.pstr v) => pyTruthy v
  | some (.plist l) => !l.isEmpty

/-- A looked-up parameter value used as the string argument of a backend
call.  A list value is never passed on any path the claims exercise. -/
def pvalToStr : Option PVal → String
  | some (.pstr v) => pyStr v
  | some (.plist _) => ""
  | none => ""

/-- A looked-up parameter value read as the matched-patient list. -/
def pvalToPatients : Option PVal → List Patient
  | some (.plist l) => l
  | _ => []

/-- A contextual fact value placed in the per-turn fact bag. -/
inductive FactVal where
  | s (v : String)
  | strList (v : List String)
  | patientV (p : Patient)
  | patientsV (l : List Patient)
  | apptsV (l : List Appointment)
  | testsV (l : List TestResult)
  | doctorsV (l : List DoctorEntry)
deriving DecidableEq, Repr

/-- The per-turn fact bag (`context` dictionary of `_handle_intent`). -/
abbrev Ctx := List (String × FactVal)

/-- Python `context.get(key, [])` where the stored value is a string
list. -/
def ctxGetStrList (ctx : Ctx) (k : String) : List String :=
  match ctx.lookup k with
  | some (.strList v) => v
  | _ => []

/-- An action emitted by a handler, with its structured payload.  The two
test-result constructors both carry the wire tag `display_test_results`;
their payload shapes differ in the source exactly as here. -/
inductive Action where
  | display_patient_info (basic_info : Patient)
      (allergies medications : List String)
  | display_matched_patients (data : List Patient)
  | display_schedule (data : List Appointment)
  | display_missed_appointments (data : List Appointment)
  | display_test_results_for_doctor (patient : String)
      (results : List TestResult)
  | display_appointments (data : List Appointment)
  | display_medications (data : List String)
  | display_test_results_for_patient (data : List TestResult)
  | initiate_appointment_scheduling (message : String)
      (available_doctors : List DoctorEntry)
deriving DecidableEq, Repr

/-- The `type` string tag of an action. -/
def Action.typeTag : Action → String
  | .display_patient_info _ _ _ => "display_patient_info"
  | .display_matched_patients _ => "display_matched_patients"
  | .display_schedule _ => "display_schedule"
  | .display_missed_appointments _ => "display_missed_appointments"
  | .display_test_results_for_doctor _ _ => "display_test_results"
  | .display_appointments _ => "display_appointments"
  | .display_medications _ => "display_medications"
  | .display_test_results_for_patient _ => "display_test_results"
  | .initiate_appointment_scheduling _ _ => "initiate_appointment_scheduling"

/-- Keyword list of get_patient_test_results (`backend_api.py` line 375). -/
def test_keywords : List String :=
  ["test", "lab", "result", "blood", "urine", "scan", "x-ray", "mri", "ct",
   "ultrasound"]

/-- One keyword occurring in any of the lowercased diagnosis, treatment or
notes fields of a record (`backend_api.py` lines 379-384). -/
def keywordHit (rec : MedicalRecord) (k : String) : Bool :=
  strContains (pyLower (rec.diagnosis.getD "")).data k.data ||
  strContains (pyLower (rec.treatment.getD "")).data k.data ||
  strContains (pyLower (rec.notes.getD "")).data k.data

/-- The record filter of get_patient_test_results. -/
def isTestRecord (rec : MedicalRecord) : Bool :=
  test_keywords.any (keywordHit rec)

/-- The doctor-name fallback of get_patient_test_results (`backend_api.py`
lines 387-393): a missing doctor id makes the inner `get_doctor` call raise,
and any failure leaves the name `"Unknown"`. -/
def doctorNameFor (gd : String → Except String Doctor)
    (doctor_id : Option String) : String :=
  match doctor_id with
  | none => "Unknown"
  | some did =>
    match gd did with
    | .ok d => "Dr. " ++ pyStr d.first_name ++ " " ++ pyStr d.last_name
    | .error _ => "Unknown"

/-- The projection of a matching record into the normalized result shape
(`backend_api.py` lines 395-403). -/
def projectTestResult (gd : String → Except String Doctor)
    (rec : MedicalRecord) : TestResult :=
  { date := rec.visit_date,
    doctor := doctorNameFor gd rec.doctor_id,
    diagnosis := rec.diagnosis,
    results := { treatment := rec.treatment, notes := rec.notes } }

/-- BackendAPIClient.get_patient_test_results (`backend_api.py`
lines 353-408), taking the medical-record fetch outcome and the doctor
lookup as inputs; any fetch failure yields the empty list. -/
def get_patient_test_results
    (recordsResult : Except String (List MedicalRecord))
    (gd : String → Except String Doctor) : List TestResult :=
  match recordsResult with
  | .error _ => []
  | .ok records => (records.filter isTestRecord).map (projectTestResult gd)

/-- The outcomes of every external call a single turn can make: the fresh
session id the uuid allocator would return, the wall-clock string, the
classification-call outcome, each backend read keyed by its argument, and
the synthesis call. -/
structure Env where
  fresh : String
  now : String
  classify : LLMClassification
  findPatientByName : String → Except String (List Patient)
  getPatient : String → Except String Patient
  getPatientAllergies : String → Except String (List String)
  getPatientMedications : String → Except String (List String)
  getDoctorSchedule : String → Except String (List Appointment)
  getMissedAppointments : String → Except String (List Appointment)
  getPatientTestResults : String → Except String (List TestResult)
  getAppointments : String → Except String (List Appointment)
  getDoctors : Except String (List Doctor)
  processChat : String → Ctx → Option String → List Msg → Except String String

/-- Modelled from the source being absent: the doctor-lookup binding that
the enrichment loop of the `patient_appointment_info` handler depends on is
commented out (`orchestrator.py` line 373), so the name `doctor` at
line 245 is unbound and evaluating the try body raises. -/
def doctorLookupOutcome : Except String Doctor :=
  .error "name doctor is not defined"

/-- The per-appointment doctor enrichment (`orchestrator.py`
lines 242-252): when the appointment carries a truthy doctor id the try
body is attempted; because `doctorLookupOutcome` always fails, the except
branch sets the doctor name to `"Unknown"` and nothing else. -/
def enrichAppointment (a : Appointment) : Appointment :=
  if pyTruthy a.doctor_id then
    match doctorLookupOutcome with
    | .ok d =>
      { a with
        doctor_name := some ("Dr. " ++ pyStr d.first_name ++ " " ++ pyStr d.last_name),
        doctor_specialty := some (d.specialty.getD "") }
    | .error _ => { a with doctor_name := some "Unknown" }
  else a

/-- The doctor-facing system prompt of `_handle_intent` (`orchestrator.py`
lines 338-347), content abridged. -/
def doctorSystemPrompt : String :=
  "You are an AI assistant for a medical clinic system, currently assisting a doctor."

/-- The patient-facing system prompt of `_handle_intent` (`orchestrator.py`
lines 349-359), content abridged. -/
def patientSystemPrompt : String :=
  "You are an AI assistant for a medical clinic system, currently assisting a patient."

/-- The fact/action assembly of Orchestrator._handle_intent
(`orchestrator.py` lines 134-333): the role-specific branch followed by the
general-intent block.  Failed sub-fetches inside the doctor_patient_info
branch are only logged in the source (print at lines 155 and 161); they
record no fact. -/
def dispatchIntent (env : Env) (intent : IntentType) (params : Params)
    (user_id user_type : String) : Ctx × List Action :=
  let base : Ctx × List Action :=
    if user_type = "doctor" then
      match intent with
      | .doctor_patient_info =>
        let patient_id := params.lookup "patient_id"
        if pvalTruthy patient_id then
          let pid := pvalToStr patient_id
          match env.getPatient pid with
          | .ok patient_data =>
            let ctx : Ctx := setKey [] "patient" (.patientV patient_data)
            let ctx :=
              match env.getPatientAllergies pid with
              | .ok a => setKey ctx "allergies" (.strList a)
              | .error _ => ctx
            let ctx :=
              match env.getPatientMedications pid with
              | .ok m => setKey ctx "medications" (.strList m)
              | .error _ => ctx
            ( ctx,
              [Action.display_patient_info patient_data
                (ctxGetStrList ctx "allergies") (ctxGetStrList ctx "medications")] )
          | .error e =>
            (setKey [] "error" (.s ("Could not retrieve patient information: " ++ e)), [])
        else if (params.lookup "matched_patients").isSome then
          let mp := pvalToPatients (params.lookup "matched_patients")
          ( setKey [] "matched_patients" (.patientsV mp),
            [Action.display_matched_patients mp] )
        else ([], [])
      | .doctor_appointment_schedule =>
        match env.getDoctorSchedule user_id with
        | .ok schedule =>
          (setKey [] "schedule" (.apptsV schedule), [Action.display_schedule schedule])
        | .error e =>
          (setKey [] "error" (.s ("Could not retrieve appointment schedule: " ++ e)), [])
      | .doctor_missed_appointments =>
        match env.getMissedAppointments user_id with
        | .ok missed =>
          ( setKey [] "missed_appointments" (.apptsV missed),
            [Action.display_missed_appointments missed] )
        | .error e =>
          (setKey [] "error" (.s ("Could not retrieve missed appointments: " ++ e)), [])
      | .doctor_test_results =>
        let patient_id := params.lookup "patient_id"
        if pvalTruthy patient_id then
          let pid := pvalToStr patient_id
          match env.getPatientTestResults pid with
          | .error e =>
            (setKey [] "error" (.s ("Could not retrieve test results: " ++ e)), [])
          | .ok test_results =>
            match env.getPatient pid with
            | .error e =>
              (setKey [] "error" (.s ("Could not retrieve test results: " ++ e)), [])
            | .ok patient_data =>
              let patient_name :=
                pyStr patient_data.first_name ++ " " ++ pyStr patient_data.last_name
              ( setKey (setKey [] "test_results" (.testsV test_results))
                  "patient_name" (.s patient_name),
                [Action.display_test_results_for_doctor patient_name test_results] )
        else ([], [])
      | _ => ([], [])
    else if user_type = "patient" then
      match intent with
      | .patient_appointment_info =>
        match env.getAppointments user_id with
        | .ok appointments =>
          let detailed := appointments.map enrichAppointment
          ( setKey [] "appointments" (.apptsV detailed),
            [Action.display_appointments detailed] )
        | .error e =>
          (setKey [] "error" (.s ("Could not retrieve appointment information: " ++ e)), [])
      | .patient_medication_info =>
        match env.getPatientMedications user_id with
        | .ok medications =>
          ( setKey [] "medications" (.strList medications),
            [Action.display_medications medications] )
        | .error e =>
          (setKey [] "error" (.s ("Could not retrieve medication information: " ++ e)), [])
      | .patient_test_results =>
        match env.getPatientTestResults user_id with
        | .ok test_results =>
          ( setKey [] "test_results" (.testsV test_results),
            [Action.display_test_results_for_patient test_results] )
        | .error e =>
          (setKey [] "error" (.s ("Could not retrieve test results: " ++ e)), [])
      | .patient_schedule_appointment =>
        match env.getDoctors with
        | .ok doctors =>
          let doctor_list := doctors.map (fun d =>
            { id := d.id,
              name := "Dr. " ++ pyStr d.first_name ++ " " ++ pyStr d.last_name,
              specialty := d.specialty.getD "General Practice" : DoctorEntry })
          ( setKey [] "available_doctors" (.doctorsV doctor_list),
            [Action.initiate_appointment_scheduling
              "Please provide your preferred date, time, and doctor for the appointment."
              doctor_list] )
        | .error e =>
          (setKey [] "error" (.s ("Could not retrieve available doctors: " ++ e)), [])
      | _ => ([], [])
    else ([], [])
  if intent = .greeting || intent = .farewell || intent = .thanks ||
     intent = .help || intent = .unknown then
    let ctx := setKey base.1 "user_type" (.s user_type)
    let ctx :=
      if intent = .help then
        if user_type = "doctor" then
          setKey ctx "help_topics" (.strList
            [ "Viewing patient information", "Checking your appointment schedule",
              "Viewing missed appointments", "Accessing test results" ])
        else if user_type = "patient" then
          setKey ctx "help_topics" (.strList
            [ "Viewing your appointments",
              "Finding information about your medications",
              "Accessing your test results", "Scheduling new appointments" ])
        else ctx
      else ctx
    (ctx, base.2)
  else base

/-- Orchestrator._handle_intent (`orchestrator.py` lines 119-369): replay
history, assemble facts and actions, pick the role prompt, and run the
synthesis call, whose failure is fatal to the turn. -/
def handle_intent (env : Env) (intent : IntentType) (params : Params)
    (user_id user_type session_id message : String) (store : Store) :
    Except String (String × List Action) :=
  let history := get_history store session_id
  let assembled := dispatchIntent env intent params user_id user_type
  let system_prompt : Option String :=
    if user_type = "doctor" then some doctorSystemPrompt
    else if user_type = "patient" then some patientSystemPrompt
    else none
  match env.processChat message assembled.1 system_prompt history with
  | .error e => .error e
  | .ok text => .ok (text, assembled.2)

/-- The name-resolution block of process_message (`orchestrator.py`
lines 54-67): when the classifier produced no `patient_id` and the caller
is a doctor, try to resolve an extracted name against the backend; zero
matches and lookup failures are no-ops, a unique match injects id and
display name, several matches are stored for disambiguation. -/
def resolvePatientParams (env : Env) (message : String) (params : Params)
    (user_type : String) : Params :=
  if (params.lookup "patient_id").isNone ∧ user_type = "doctor" then
    match extract_patient_name message with
    | none => params
    | some patient_name =>
      if patient_name.isEmpty then params
      else
        match env.findPatientByName patient_name with
        | .error _ => params
        | .ok patients =>
          if patients.length = 1 then
            match patients with
            | p :: _ =>
              setKey
                (setKey params "patient_id" (.pstr p.id))
                "patient_name"
                (.pstr (some (pyStr p.first_name ++ " " ++ pyStr p.last_name)))
            | [] => params
          else if patients.length > 1 then
            setKey params "matched_patients" (.plist patients)
          else params
  else params

/-- The session-resolution prefix of process_message (`orchestrator.py`
lines 29-41): validation, optional creation, lookup, and the
stale-session-id fallback. -/
def resolveSession (env : Env) (store : Store)
    (session_id user_id user_type : Option String) :
    Except String (String × Store × Session) :=
  if !pyTruthy session_id && (!pyTruthy user_id || !pyTruthy user_type) then
    .error "Either session_id or both user_id and user_type must be provided"
  else
    let first :=
      if !pyTruthy session_id then
        create_session store env.fresh (user_id.getD "") (user_type.getD "") env.now
      else (session_id.getD "", store)
    match get_session first.2 first.1 with
    | some s => .ok (first.1, first.2, s)
    | none =>
      if !pyTruthy user_id || !pyTruthy user_type then
        .error "Session not found and user_id/user_type not provided"
      else
        let second :=
          create_session first.2 env.fresh (user_id.getD "") (user_type.getD "") env.now
        match get_session second.2 second.1 with
        | some s => .ok (second.1, second.2, s)
        | none => .error "AttributeError: NoneType has no attribute get"

/-- The turn result dictionary built at `orchestrator.py` lines 80-85:
exactly the four fields text, session_id, intent, actions. -/
structure Response where
  text : String
  session_id : String
  intent : IntentType
  actions : List Action
deriving DecidableEq, Repr

/-- Orchestrator.process_message (`orchestrator.py` lines 10-87): the whole
turn.  The result pairs the outcome (a response, or the propagated
exception) with the final store, so that side effects already committed
before a failure stay visible. -/
def processMessage (env : Env) (store : Store) (message : String)
    (session_id user_id user_type : Option String) :
    Except String Response × Store :=
  match resolveSession env store session_id user_id user_type with
  | .error e => (.error e, store)
  | .ok (sid, store1, session) =>
    let utype := session.user_type
    let uid := session.user_id
    let store2 := (add_message_to_history store1 sid "user" message env.now).2
    match recognize_intent env.classify with
    | .error e => (.error e, store2)
    | .ok (intent, params0) =>
      let params := resolvePatientParams env message params0 utype
      let store3 := (set_metadata store2 sid "last_intent" (.intentV intent)).2
      let store4 := (set_metadata store3 sid "intent_parameters" (.paramsV params)).2
      match handle_intent env intent params uid utype sid message store4 with
      | .error e => (.error e, store4)
      | .ok (text, actions) =>
        let store5 := (add_message_to_history store4 sid "assistant" text env.now).2
        ( .ok { text := text, session_id := sid, intent := intent, actions := actions },
          store5 )

/-- The transport response model (`app/models/responses.py` lines 4-8):
message, session_id and actions only. -/
structure ChatResponse where
  message : String
  session_id : String
  actions : List Action
deriving DecidableEq, Repr

/-- The projection performed by the chat route (`app/api/routes.py`
lines 37-41): the orchestrator text becomes `message`; the intent is not
carried over. -/
def chatResponseOf (r : Response) : ChatResponse :=
  { message := r.text, session_id := r.session_id, actions := r.actions }

/-- A patient-role session used by concrete witnesses. -/
def demoSession : Session :=
  { user_id := "u1", user_type := "patient", created_at := "t0",
    history := [], metadata := [] }

/-- A one-session store used by concrete witnesses. -/
def demoStore : Store :=
  fun k => if k = "s1" then some demoSession else none

/-- The store with no sessions at all. -/
def emptyStore : Store := fun _ => none

/-- Twenty-one distinct messages used by the history-bound witness. -/
def demoMsgs : List Msg :=
  (List.range 21).map (fun i => Msg.mk "user" (toString i) "t")

/-- A baseline environment for concrete runs: the classifier reports a
greeting, every backend read fails, and synthesis succeeds with a fixed
reply. -/
def baseEnv : Env :=
  { fresh := "fresh1", now := "t1",
    classify := .payload (some "greeting") none,
    findPatientByName := fun _ => .ok [],
    getPatient := fun _ => .error "unavailable",
    getPatientAllergies := fun _ => .error "unavailable",
    getPatientMedications := fun _ => .error "unavailable",
    getDoctorSchedule := fun _ => .error "unavailable",
    getMissedAppointments := fun _ => .error "unavailable",
    getPatientTestResults := fun _ => .error "unavailable",
    getAppointments := fun _ => .error "unavailable",
    getDoctors := .error "unavailable",
    processChat := fun _ _ _ _ => .ok "REPLY" }

/-- An environment whose classifier (incorrectly, for a patient session)
reports the clinician intent doctor_patient_info. -/
def roleGateEnv : Env :=
  { baseEnv with classify := .payload (some "doctor_patient_info") none }

/-- A concrete patient record. -/
def demoPatient : Patient :=
  { id := some "p1", first_name := some "Jane", last_name := some "Doe" }

/-- A second concrete patient record with the same name. -/
def demoPatient2 : Patient :=
  { id := some "p2", first_name := some "Jane", last_name := some "Doe" }

/-- An environment where the base patient fetch and the medication fetch
succeed but the allergy sub-fetch fails. -/
def allergyFailEnv : Env :=
  { baseEnv with
    classify := .payload (some "doctor_patient_info")
      (some [("patient_id", .pstr (some "p1"))]),
    getPatient := fun _ => .ok demoPatient,
    getPatientAllergies := fun _ => .error "allergy backend down",
    getPatientMedications := fun _ => .ok ["aspirin"] }

/-- An environment where the name search returns two candidates. -/
def twoMatchEnv : Env :=
  { baseEnv with findPatientByName := fun _ => .ok [demoPatient, demoPatient2] }

/-- A concrete appointment carrying a doctor id and no enrichment
fields. -/
def demoAppointment : Appointment :=
  { id := some "a1", patient_id := some "u1", doctor_id := some "d9",
    date_time := some "2025-05-15T14:30:00", status := some "confirmed",
    doctor_name := none, doctor_specialty := none }

/-- An environment where the appointment list fetch succeeds with one
appointment. -/
def apptEnv : Env :=
  { baseEnv with getAppointments := fun _ => .ok [demoAppointment] }

/-- The response produced by the baseline greeting run on the demo
session. -/
def demoResp : Response :=
  { text := "REPLY", session_id := "s1", intent := .greeting, actions := [] }

/-- The response produced by the foreign-role-intent run on the demo
patient session. -/
def roleResp : Response :=
  { text := "REPLY", session_id := "s1", intent := .doctor_patient_info,
    actions := [] }

/- ------------------------------------------------------------------ -/
/- Theorems.                                                          -/
/- ------------------------------------------------------------------ -/

theorem lastN_eq_self {α : Type _} (n : Nat) (l : List α) (h : l.length ≤ n) :
    lastN n l = l := by
  unfold lastN
  rw [Nat.sub_eq_zero_of_le h, List.drop_zero]

theorem addMsg_eq_lastN (h : List Msg) (m : Msg) :
    addMsg h m = lastN 20 (h ++ [m]) := by
  show (if (h ++ [m]).length > 20
      then (h ++ [m]).drop ((h ++ [m]).length - 20)
      else (h ++ [m])) = lastN 20 (h ++ [m])
  split
  · rfl
  · next hc => exact (lastN_eq_self 20 (h ++ [m]) (by omega)).symm

theorem lastN_append_lastN {α : Type _} (n : Nat) (l ms : List α) :
    lastN n (lastN n l ++ ms) = lastN n (l ++ ms) := by
  rcases le_or_lt l.length n with h | h
  · rw [lastN_eq_self n l h]
  · have hlen : (List.drop (l.length - n) l).length = n := by
      rw [List.length_drop]; omega
    unfold lastN
    rw [List.length_append, List.length_append, hlen,
        List.drop_append_eq_append_drop, List.drop_append_eq_append_drop,
        List.drop_drop, hlen]
    have e1 : l.length - n + (n + ms.length - n) = l.length + ms.length - n := by
      omega
    have e2 : n + ms.length - n - n = l.length + ms.length - n - l.length := by
      omega
    rw [e1, e2]

theorem foldl_addMsg (msgs : List Msg) (h : List Msg) (hne : msgs ≠ []) :
    List.foldl addMsg h msgs = lastN 20 (h ++ msgs) := by
  induction msgs generalizing h with
  | nil => exact absurd rfl hne
  | cons m ms ih =>
    rw [List.foldl_cons]
    cases ms with
    | nil => simpa using addMsg_eq_lastN h m
    | cons m2 ms2 =>
      rw [ih (addMsg h m) (by simp), addMsg_eq_lastN, lastN_append_lastN]
      simp

theorem get_session_set_self (store : Store) (sid : String) (s : Session) :
    get_session (Store.set store sid s) sid = some s := by
  simp [get_session, Store.set]

theorem add_message_get (store : Store) (sid : String) (s : Session)
    (r c t : String) (hs : get_session store sid = some s) :
    get_session (add_message_to_history store sid r c t).2 sid
      = some { s with history := addMsg s.history (Msg.mk r c t) } := by
  have hs' : store sid = some s := hs
  unfold add_message_to_history update_session
  rw [show get_session store sid = some s from hs]
  simp [hs', get_session_set_self]

theorem appendAll_get (msgs : List Msg) (store : Store) (sid : String)
    (s : Session) (hs : get_session store sid = some s) :
    get_session (appendAll store sid msgs) sid
      = some { s with history := List.foldl addMsg s.history msgs } := by
  induction msgs generalizing store s with
  | nil => exact hs
  | cons m ms ih =>
    unfold appendAll
    rw [List.foldl_cons]
    exact ih _ _ (add_message_get store sid s m.role m.content m.timestamp hs)

theorem lastN_append_of_ge {α : Type _} (h msgs : List α)
    (hm : 20 ≤ msgs.length) :
    lastN 20 (h ++ msgs) = msgs.drop (msgs.length - 20) := by
  unfold lastN
  rw [List.length_append, List.drop_append_eq_append_drop,
      List.drop_eq_nil_of_le (by omega : h.length ≤ h.length + msgs.length - 20)]
  have h2 : h.length + msgs.length - 20 - h.length = msgs.length - 20 := by omega
  rw [h2, List.nil_append]

/-- C3: for any session present in the store, after appending 21 or more
messages through add_message_to_history, the stored history is exactly the
last 20 appended messages in their original order. -/
theorem history_bound_after_21 (store : Store) (sid : String) (s : Session)
    (msgs : List Msg) (hs : get_session store sid = some s)
    (hn : 21 ≤ msgs.length) :
    get_history (appendAll store sid msgs) sid
      = msgs.drop (msgs.length - 20) ∧
    (get_history (appendAll store sid msgs) sid).length = 20 := by
  have hne : msgs ≠ [] := by
    intro h; subst h; simp at hn
  have hget := appendAll_get msgs store sid s hs
  have hh : get_history (appendAll store sid msgs) sid
      = List.foldl addMsg s.history msgs := by
    unfold get_history
    rw [hget]
  rw [hh, foldl_addMsg msgs s.history hne,
      lastN_append_of_ge s.history msgs (by omega)]
  refine ⟨rfl, ?_⟩
  rw [List.length_drop]; omega

/-- Witness for C3 at a concrete store and 21 concrete messages. -/
theorem history_bound_after_21_witness :
    get_history (appendAll demoStore "s1" demoMsgs) "s1"
      = demoMsgs.drop (demoMsgs.length - 20) ∧
    (get_history (appendAll demoStore "s1" demoMsgs) "s1").length = 20 :=
  history_bound_after_21 demoStore "s1" demoSession demoMsgs rfl (by decide)

/-- C10: a missing or expired session makes get_history return the empty
list, which is exactly what it returns for an existing session whose
history is empty — the two cases are indistinguishable to any caller. -/
theorem get_history_missing_session_empty (store : Store) (sid : String)
    (h : get_session store sid = none) :
    get_history store sid = [] ∧
    (∀ (store2 : Store) (sid2 : String) (s : Session),
      get_session store2 sid2 = some s → s.history = [] →
      get_history store2 sid2 = get_history store sid) := by
  constructor
  · simp [get_history, h]
  · intro store2 sid2 s h2 hh
    simp [get_history, h, h2, hh]

/-- Witness for C10: an absent id in the empty store versus a fresh session
with empty history. -/
theorem get_history_missing_session_witness :
    get_history emptyStore "ghost" = [] ∧
    get_history demoStore "s1" = get_history emptyStore "ghost" :=
  ⟨(get_history_missing_session_empty emptyStore "ghost" rfl).1,
   (get_history_missing_session_empty emptyStore "ghost" rfl).2
      demoStore "s1" demoSession rfl rfl⟩

/-- C8: a medical record is included in the derived test-result view iff
one of the domain keywords occurs in its lowercased diagnosis, treatment or
notes field, and every match is projected into the normalized
date/doctor/diagnosis/results shape. -/
theorem test_results_keyword_filter
    (recs : List MedicalRecord) (gd : String → Except String Doctor)
    (t : TestResult) :
    (t ∈ get_patient_test_results (.ok recs) gd ↔
      ∃ rec, rec ∈ recs ∧
        (∃ k, k ∈ test_keywords ∧
          (strContains (pyLower (rec.diagnosis.getD "")).data k.data = true ∨
           strContains (pyLower (rec.treatment.getD "")).data k.data = true ∨
           strContains (pyLower (rec.notes.getD "")).data k.data = true)) ∧
        t = projectTestResult gd rec) ∧
    (∀ rec : MedicalRecord,
      (projectTestResult gd rec).date = rec.visit_date ∧
      (projectTestResult gd rec).diagnosis = rec.diagnosis ∧
      (projectTestResult gd rec).results.treatment = rec.treatment ∧
      (projectTestResult gd rec).results.notes = rec.notes) := by
  constructor
  · simp only [get_patient_test_results, List.mem_map, List.mem_filter,
      isTestRecord, List.any_eq_true, keywordHit, Bool.or_eq_true]
    constructor
    · rintro ⟨rec, ⟨hmem, k, hk, hhit⟩, heq⟩
      exact ⟨rec, hmem, ⟨k, hk, by tauto⟩, heq.symm⟩
    · rintro ⟨rec, hmem, ⟨k, hk, hhit⟩, heq⟩
      exact ⟨rec, ⟨hmem, k, hk, by tauto⟩, heq.symm⟩
  · intro rec
    exact ⟨rfl, rfl, rfl, rfl⟩

/-- C2 counterexample: an exception raised by the classification call
itself is not mapped to (unknown, empty) — it propagates, because the try
block in recognize_intent begins only after the call. -/
theorem classifier_call_error_propagates_cex :
    recognize_intent (.callError "connection error")
      = .error "connection error" ∧
    recognize_intent (.callError "connection error")
      ≠ .ok (.unknown, []) := by
  refine ⟨rfl, ?_⟩
  intro h
  simp [recognize_intent] at h

/-- C2 amended: malformed payloads from a successful call degrade without
raising (unparsable payload to (unknown, empty); missing or
out-of-enumeration intent to unknown with the extracted parameters), but an
exception from the classification call itself propagates uncaught. -/
theorem classifier_degradation_amended :
    (∀ e, recognize_intent (.badPayload e) = .ok (.unknown, [])) ∧
    (∀ p, recognize_intent (.payload none p) = .ok (.unknown, p.getD [])) ∧
    (∀ s p, IntentType.ofString? s = none →
      recognize_intent (.payload (some s) p) = .ok (.unknown, p.getD [])) ∧
    (∀ e, recognize_intent (.callError e) = .error e) := by
  refine ⟨fun e => rfl, fun p => rfl, ?_, fun e => rfl⟩
  intro s p h
  simp [recognize_intent, h]

/-- Witness for C2 amended: a concrete out-of-enumeration intent string
with nonempty extracted parameters. -/
theorem setKey_head_eq {α : Type _} (a2 : α) (k : String) (v : α) :
    (fun kv : String × α => if kv.1 = k then (k, v) else kv) (k, a2)
      = (k, v) := by
  simp

theorem setKey_head_ne {α : Type _} (a1 : String) (a2 : α) (k : String)
    (v : α) (h : a1 ≠ k) :
    (fun kv : String × α => if kv.1 = k then (k, v) else kv) (a1, a2)
      = (a1, a2) := by
  simp [h]

theorem lookup_map_overwrite {α : Type _} (l : List (String × α))
    (k : String) (v : α) :
    (l.map (fun kv => if kv.1 = k then (k, v) else kv)).lookup k
      = if (l.lookup k).isSome then some v else none := by
  induction l with
  | nil => simp
  | cons a l ih =>
    obtain ⟨a1, a2⟩ := a
    rw [List.map_cons]
    by_cases hk : a1 = k
    · subst hk
      rw [if_pos (show ((a1, a2) : String × α).1 = a1 from rfl)]
      simp [List.lookup_cons]
    · rw [if_neg (show ¬((a1, a2) : String × α).1 = k from hk)]
      have hb : (k == a1) = false := beq_eq_false_iff_ne.mpr (Ne.symm hk)
      simp only [List.lookup_cons, hb]
      exact ih

theorem lookup_map_overwrite_ne {α : Type _} (l : List (String × α))
    (k k2 : String) (v : α) (h : k2 ≠ k) :
    (l.map (fun kv => if kv.1 = k then (k, v) else kv)).lookup k2
      = l.lookup k2 := by
  induction l with
  | nil => simp
  | cons a l ih =>
    obtain ⟨a1, a2⟩ := a
    rw [List.map_cons]
    by_cases hk : a1 = k
    · subst hk
      rw [if_pos (show ((a1, a2) : String × α).1 = a1 from rfl)]
      have hb : (k2 == a1) = false := beq_eq_false_iff_ne.mpr h
      simp only [List.lookup_cons, hb]
      exact ih
    · rw [if_neg (show ¬((a1, a2) : String × α).1 = k from hk)]
      rcases hb : (k2 == a1) with _ | _ <;> simp only [List.lookup_cons, hb, ih]

theorem lookup_append_single {α : Type _} (l : List (String × α))
    (k : String) (v : α) (h : l.lookup k = none) :
    (l ++ [(k, v)]).lookup k = some v := by
  induction l with
  | nil => simp [List.lookup_cons]
  | cons a l ih =>
    obtain ⟨a1, a2⟩ := a
    rw [List.cons_append]
    rw [List.lookup_cons] at h
    rcases hb : (k == a1) with _ | _
    · rw [hb] at h
      simp only [List.lookup_cons, hb]
      exact ih h
    · rw [hb] at h
      simp at h

theorem lookup_append_single_ne {α : Type _} (l : List (String × α))
    (k k2 : String) (v : α) (h : k2 ≠ k) :
    (l ++ [(k, v)]).lookup k2 = l.lookup k2 := by
  induction l with
  | nil => simp [List.lookup_cons, beq_eq_false_iff_ne.mpr h]
  | cons a l ih =>
    obtain ⟨a1, a2⟩ := a
    rw [List.cons_append]
    rcases hb : (k2 == a1) with _ | _ <;> simp only [List.lookup_cons, hb, ih]

theorem setKey_nil {α : Type _} (k : String) (v : α) :
    setKey ([] : List (String × α)) k v = [(k, v)] := by
  simp [setKey]

theorem lookup_setKey_self {α : Type _} (l : List (String × α))
    (k : String) (v : α) :
    (setKey l k v).lookup k = some v := by
  unfold setKey
  rcases h : l.lookup k with _ | w
  · rw [if_neg (by simp [h])]
    exact lookup_append_single l k v h
  · rw [if_pos (by simp [h])]
    rw [lookup_map_overwrite l k v, h]
    rfl

theorem lookup_setKey_ne {α : Type _} (l : List (String × α))
    (k k2 : String) (v : α) (h : k2 ≠ k) :
    (setKey l k v).lookup k2 = l.lookup k2 := by
  unfold setKey
  split
  · exact lookup_map_overwrite_ne l k k2 v h
  · exact lookup_append_single_ne l k k2 v h

theorem processMessage_ok_intent (env : Env) (store : Store)
    (message : String) (sid uid ut : Option String) (i : IntentType)
    (ps : Params) (r : Response) (st : Store)
    (hrec : recognize_intent env.classify = .ok (i, ps))
    (hpm : processMessage env store message sid uid ut = (.ok r, st)) :
    r.intent = i := by
  unfold processMessage at hpm
  split at hpm
  · simp at hpm
  · simp only [hrec] at hpm
    split at hpm
    · simp at hpm
    · simp only [Prod.mk.injEq, Except.ok.injEq] at hpm
      rw [← hpm.1]

/-- C1 counterexample: on the demo patient session, a classifier payload
carrying doctor_patient_info produces a turn whose response still carries
doctor_patient_info (with no handler output), instead of the defensive
re-check to unknown that the claim requires. -/
theorem intent_not_remapped_to_unknown_cex :
    (processMessage roleGateEnv demoStore "please show patient data"
        (some "s1") none none).1 = .ok roleResp ∧
    roleResp.intent ≠ IntentType.unknown :=
  ⟨rfl, by decide⟩

/-- C1 amended: on a patient-role session a clinician-only intent produces
no clinician handler output (empty fact bag and no actions), but no
defensive re-check exists: the foreign-role intent is preserved in the
turn's response instead of being mapped to unknown. -/
theorem patient_role_dispatch_empty_for_doctor_intents
    (env : Env) (params : Params) (uid : String) (intent : IntentType)
    (h : intent = .doctor_patient_info ∨
         intent = .doctor_appointment_schedule ∨
         intent = .doctor_missed_appointments ∨
         intent = .doctor_test_results) :
    dispatchIntent env intent params uid "patient" = ([], []) ∧
    (∀ (store : Store) (message : String) (sid uid2 ut : Option String)
        (ps : Params) (r : Response) (st : Store),
      recognize_intent env.classify = .ok (intent, ps) →
      processMessage env store message sid uid2 ut = (.ok r, st) →
      r.intent = intent) := by
  constructor
  · rcases h with h | h | h | h <;> subst h <;> rfl
  · intro store message sid uid2 ut ps r st hrec hpm
    exact processMessage_ok_intent env store message sid uid2 ut intent ps
      r st hrec hpm

/-- Witness for C1 amended: the concrete foreign-role run. -/
theorem patient_role_dispatch_empty_witness :
    dispatchIntent roleGateEnv .doctor_patient_info [] "u1" "patient"
      = ([], []) ∧
    roleResp.intent = IntentType.doctor_patient_info :=
  ⟨(patient_role_dispatch_empty_for_doctor_intents roleGateEnv [] "u1"
      .doctor_patient_info (Or.inl rfl)).1,
   (patient_role_dispatch_empty_for_doctor_intents roleGateEnv [] "u1"
      .doctor_patient_info (Or.inl rfl)).2
      demoStore "please show patient data" (some "s1") none none []
      roleResp
      (processMessage roleGateEnv demoStore "please show patient data"
        (some "s1") none none).2
      rfl rfl⟩

theorem resolveSession_missing_identity (env : Env) (store : Store)
    (sid uid ut : Option String) (h1 : pyTruthy sid = false)
    (h2 : pyTruthy uid = false ∨ pyTruthy ut = false) :
    resolveSession env store sid uid ut
      = .error "Either session_id or both user_id and user_type must be provided" := by
  unfold resolveSession
  rcases h2 with h2 | h2 <;> simp [h1, h2]

theorem resolveSession_stale_no_identity (env : Env) (store : Store)
    (sid uid ut : Option String) (h1 : pyTruthy sid = true)
    (hg : get_session store (sid.getD "") = none)
    (h2 : pyTruthy uid = false ∨ pyTruthy ut = false) :
    resolveSession env store sid uid ut
      = .error "Session not found and user_id/user_type not provided" := by
  unfold resolveSession
  rcases h2 with h2 | h2 <;> simp [h1, hg, h2]

theorem resolveSession_stale_with_identity (env : Env) (store : Store)
    (sid uid ut : Option String) (h1 : pyTruthy sid = true)
    (hg : get_session store (sid.getD "") = none)
    (hu : pyTruthy uid = true) (ht : pyTruthy ut = true) :
    resolveSession env store sid uid ut
      = .ok (env.fresh,
             Store.set store env.fresh
               (Session.mk (uid.getD "") (ut.getD "") env.now [] []),
             Session.mk (uid.getD "") (ut.getD "") env.now [] []) := by
  have hg2 : store (sid.getD "") = none := hg
  unfold resolveSession create_session
  simp [h1, hg2, hu, ht, get_session, Store.set]

/-- C4: a turn with no session id and missing identity fails validation
with the store untouched; a stale session id fails unless both identity
fields were supplied, in which case a fresh session is created. -/
theorem session_validation (env : Env) (store : Store) (message : String)
    (sid uid ut : Option String) :
    (pyTruthy sid = false → pyTruthy uid = false ∨ pyTruthy ut = false →
      processMessage env store message sid uid ut
        = (.error "Either session_id or both user_id and user_type must be provided",
           store)) ∧
    (pyTruthy sid = true → get_session store (sid.getD "") = none →
      (pyTruthy uid = false ∨ pyTruthy ut = false →
        processMessage env store message sid uid ut
          = (.error "Session not found and user_id/user_type not provided",
             store)) ∧
      (pyTruthy uid = true → pyTruthy ut = true →
        resolveSession env store sid uid ut
          = .ok (env.fresh,
                 Store.set store env.fresh
                   (Session.mk (uid.getD "") (ut.getD "") env.now [] []),
                 Session.mk (uid.getD "") (ut.getD "") env.now [] []))) := by
  refine ⟨fun h1 h2 => ?_, fun h1 hg => ⟨fun h2 => ?_, fun hu ht =>
    resolveSession_stale_with_identity env store sid uid ut h1 hg hu ht⟩⟩
  · unfold processMessage
    rw [resolveSession_missing_identity env store sid uid ut h1 h2]
  · unfold processMessage
    rw [resolveSession_stale_no_identity env store sid uid ut h1 hg h2]

/-- Witness for C4: the three validation outcomes at concrete inputs. -/
theorem session_validation_witness :
    processMessage baseEnv emptyStore "hi" none none (some "doctor")
      = (.error "Either session_id or both user_id and user_type must be provided",
         emptyStore) ∧
    processMessage baseEnv emptyStore "hi" (some "ghost") none (some "doctor")
      = (.error "Session not found and user_id/user_type not provided",
         emptyStore) ∧
    resolveSession baseEnv emptyStore (some "ghost") (some "u9") (some "doctor")
      = .ok ("fresh1",
             Store.set emptyStore "fresh1" (Session.mk "u9" "doctor" "t1" [] []),
             Session.mk "u9" "doctor" "t1" [] []) :=
  ⟨(session_validation baseEnv emptyStore "hi" none none (some "doctor")).1
      rfl (Or.inl rfl),
   ((session_validation baseEnv emptyStore "hi" (some "ghost") none
      (some "doctor")).2 rfl rfl).1 (Or.inl rfl),
   ((session_validation baseEnv emptyStore "hi" (some "ghost") (some "u9")
      (some "doctor")).2 rfl rfl).2 rfl rfl⟩

/-- C5 counterexample: with the base patient fetch succeeding and the
allergy sub-fetch failing, the fact bag of the concrete turn contains the
patient fact but no error fact at all — the allergies failure is only
logged, contradicting the claimed recorded error fact. -/
theorem allergy_failure_no_error_fact_cex :
    ((dispatchIntent allergyFailEnv .doctor_patient_info
        [("patient_id", .pstr (some "p1"))] "d1" "doctor").1).lookup "error"
      = none ∧
    ((dispatchIntent allergyFailEnv .doctor_patient_info
        [("patient_id", .pstr (some "p1"))] "d1" "doctor").1).lookup "patient"
      = some (.patientV demoPatient) ∧
    ((dispatchIntent allergyFailEnv .doctor_patient_info
        [("patient_id", .pstr (some "p1"))] "d1" "doctor").1).lookup "allergies"
      = none :=
  ⟨rfl, rfl, rfl⟩

/-- C5 amended: when the base patient fetch succeeds and the allergy
sub-fetch fails, the turn still completes with a non-error reply carrying
the patient and medication facts and the display action (whose allergies
field defaults to empty); the allergies failure is only logged — neither an
allergies fact nor an error fact is recorded — and it never aborts the
turn. -/
theorem allergy_failure_isolated_amended (env : Env) (pid : String)
    (p : Patient) (meds : List String) (ea : String) (uid : String)
    (hpid : pid ≠ "")
    (hp : env.getPatient pid = .ok p)
    (ha : env.getPatientAllergies pid = .error ea)
    (hm : env.getPatientMedications pid = .ok meds) :
    dispatchIntent env .doctor_patient_info
        [("patient_id", .pstr (some pid))] uid "doctor"
      = ([("patient", .patientV p), ("medications", .strList meds)],
         [.display_patient_info p [] meds]) ∧
    (∀ (store : Store) (sidm msg t : String),
      env.processChat msg
          [("patient", .patientV p), ("medications", .strList meds)]
          (some doctorSystemPrompt) (get_history store sidm) = .ok t →
      handle_intent env .doctor_patient_info
          [("patient_id", .pstr (some pid))] uid "doctor" sidm msg store
        = .ok (t, [.display_patient_info p [] meds])) := by
  have hpe : pid.isEmpty = false := by
    rcases h : pid.isEmpty with _ | _
    · rfl
    · exact absurd ((String.isEmpty_iff pid).mp h) hpid
  have hd : dispatchIntent env .doctor_patient_info
      [("patient_id", .pstr (some pid))] uid "doctor"
        = ([("patient", .patientV p), ("medications", .strList meds)],
           [.display_patient_info p [] meds]) := by
    simp [dispatchIntent, pvalTruthy, pyTruthy, hpe, pvalToStr, pyStr,
      hp, ha, hm, setKey, ctxGetStrList, List.lookup]
  refine ⟨hd, fun store sidm msg t hchat => ?_⟩
  unfold handle_intent
  rw [hd]
  simp [hchat]

/-- Witness for C5 amended at the concrete failing-allergies
environment. -/
theorem allergy_failure_isolated_witness :
    dispatchIntent allergyFailEnv .doctor_patient_info
        [("patient_id", .pstr (some "p1"))] "d1" "doctor"
      = ([("patient", .patientV demoPatient),
          ("medications", .strList ["aspirin"])],
         [.display_patient_info demoPatient [] ["aspirin"]]) ∧
    handle_intent allergyFailEnv .doctor_patient_info
        [("patient_id", .pstr (some "p1"))] "d1" "doctor" "s1" "show Jane"
        demoStore
      = .ok ("REPLY", [.display_patient_info demoPatient [] ["aspirin"]]) :=
  ⟨(allergy_failure_isolated_amended allergyFailEnv "p1" demoPatient
      ["aspirin"] "allergy backend down" "d1" (by decide) rfl rfl rfl).1,
   (allergy_failure_isolated_amended allergyFailEnv "p1" demoPatient
      ["aspirin"] "allergy backend down" "d1" (by decide) rfl rfl rfl).2
      demoStore "s1" "show Jane" "REPLY" rfl⟩

/-- C6: with no classifier patient_id on a clinician turn and an extracted
name, backend name resolution is a no-op on zero matches, injects id and
display name on a unique match, and on several matches stores all
candidates without resolving an id; dispatching patient-info on that
parameter set emits exactly one display_matched_patients action and no
patient-specific facts. -/
theorem name_resolution_cases (env : Env) (message : String)
    (params : Params) (nm : String) (ps : List Patient) (uid : String)
    (hex : extract_patient_name message = some nm)
    (hne : nm.isEmpty = false)
    (hpid : params.lookup "patient_id" = none)
    (hf : env.findPatientByName nm = .ok ps) :
    (ps = [] → resolvePatientParams env message params "doctor" = params) ∧
    (∀ p, ps = [p] →
      resolvePatientParams env message params "doctor"
        = setKey (setKey params "patient_id" (.pstr p.id)) "patient_name"
            (.pstr (some (pyStr p.first_name ++ " " ++ pyStr p.last_name)))) ∧
    (2 ≤ ps.length →
      resolvePatientParams env message params "doctor"
        = setKey params "matched_patients" (.plist ps) ∧
      (setKey params "matched_patients" (.plist ps)).lookup "patient_id"
        = none ∧
      dispatchIntent env .doctor_patient_info
          (setKey params "matched_patients" (.plist ps)) uid "doctor"
        = ([("matched_patients", .patientsV ps)],
           [.display_matched_patients ps])) := by
  refine ⟨fun h0 => ?_, fun p h1 => ?_, fun h2 => ?_⟩
  · subst h0
    simp [resolvePatientParams, hpid, hex, hne, hf]
  · subst h1
    simp [resolvePatientParams, hpid, hex, hne, hf]
  · have hl1 : ¬ ps.length = 1 := by omega
    have hl2 : ps.length > 1 := by omega
    have hres : resolvePatientParams env message params "doctor"
        = setKey params "matched_patients" (.plist ps) := by
      simp [resolvePatientParams, hpid, hex, hne, hf, hl1, hl2]
    have hlook : (setKey params "matched_patients" (.plist ps)).lookup
        "patient_id" = none := by
      rw [lookup_setKey_ne params "matched_patients" "patient_id"
        (.plist ps) (by decide)]
      exact hpid
    refine ⟨hres, hlook, ?_⟩
    have hmp := lookup_setKey_self params "matched_patients" (PVal.plist ps)
    simp [dispatchIntent, hlook, hmp, pvalTruthy, pvalToPatients, setKey_nil]

/-- Witness for C6 at the two-match environment and a concrete message. -/
theorem name_resolution_cases_witness :
    resolvePatientParams twoMatchEnv "Show me Jane Doe" [] "doctor"
      = setKey [] "matched_patients" (.plist [demoPatient, demoPatient2]) ∧
    (setKey ([] : Params) "matched_patients"
        (.plist [demoPatient, demoPatient2])).lookup "patient_id" = none ∧
    dispatchIntent twoMatchEnv .doctor_patient_info
        (setKey [] "matched_patients" (.plist [demoPatient, demoPatient2]))
        "d1" "doctor"
      = ([("matched_patients", .patientsV [demoPatient, demoPatient2])],
         [.display_matched_patients [demoPatient, demoPatient2]]) :=
  (name_resolution_cases twoMatchEnv "Show me Jane Doe" [] "jane doe"
    [demoPatient, demoPatient2] "d1" rfl rfl rfl rfl).2.2 (by decide)

/-- C7 counterexample: two orchestrator results that differ only in intent
yield identical transport responses — the transport boundary does not carry
the intent. -/
theorem transport_drops_intent_cex :
    chatResponseOf (Response.mk "t" "s" .greeting [])
      = chatResponseOf (Response.mk "t" "s" .thanks []) ∧
    (Response.mk "t" "s" IntentType.greeting []).intent
      ≠ (Response.mk "t" "s" IntentType.thanks []).intent :=
  ⟨rfl, by decide⟩

/-- C7 amended: every successful turn returns exactly the four fields text,
session_id, intent and actions; the transport response carries the text (as
message), the session id and the actions, and is fully determined by those
three — the intent is dropped at the boundary. -/
theorem turn_response_shape_amended (env : Env) (store : Store)
    (message : String) (sid uid ut : Option String) (r : Response)
    (st : Store)
    (_h : processMessage env store message sid uid ut = (.ok r, st)) :
    r = Response.mk r.text r.session_id r.intent r.actions ∧
    chatResponseOf r = ChatResponse.mk r.text r.session_id r.actions ∧
    (∀ r2 : Response, r2.text = r.text → r2.session_id = r.session_id →
      r2.actions = r.actions → chatResponseOf r2 = chatResponseOf r) := by
  refine ⟨rfl, rfl, fun r2 h1 h2 h3 => ?_⟩
  simp [chatResponseOf, h1, h2, h3]

/-- Witness for C7 amended at the concrete greeting run. -/
theorem turn_response_shape_witness :
    chatResponseOf demoResp
      = ChatResponse.mk demoResp.text demoResp.session_id demoResp.actions :=
  (turn_response_shape_amended baseEnv demoStore "hello" (some "s1") none
    none demoResp
    (processMessage baseEnv demoStore "hello" (some "s1") none none).2
    rfl).2.1

/-- C9: when the appointment fetch succeeds on a patient
patient_appointment_info turn, every appointment with a truthy doctor id is
annotated with the literal doctor name Unknown and its specialty field is
left untouched, because the doctor lookup the enrichment depends on is
never performed. -/
theorem appointment_doctor_enrichment_fallback (env : Env) (uid : String)
    (params : Params) (appts : List Appointment)
    (h : env.getAppointments uid = .ok appts) :
    dispatchIntent env .patient_appointment_info params uid "patient"
      = ([("appointments", .apptsV (appts.map enrichAppointment))],
         [.display_appointments (appts.map enrichAppointment)]) ∧
    (∀ a : Appointment, pyTruthy a.doctor_id = true →
      enrichAppointment a = { a with doctor_name := some "Unknown" }) ∧
    (∀ a : Appointment,
      (enrichAppointment a).doctor_specialty = a.doctor_specialty) := by
  refine ⟨?_, fun a ha => ?_, fun a => ?_⟩
  · simp [dispatchIntent, h, setKey, List.lookup]
  · simp [enrichAppointment, ha, doctorLookupOutcome]
  · rcases ha : pyTruthy a.doctor_id with _ | _ <;>
      simp [enrichAppointment, ha, doctorLookupOutcome]

/-- Witness for C9 at a concrete appointment list. -/
theorem appointment_doctor_enrichment_witness :
    dispatchIntent apptEnv .patient_appointment_info [] "u1" "patient"
      = ([("appointments", .apptsV ([demoAppointment].map enrichAppointment))],
         [.display_appointments ([demoAppointment].map enrichAppointment)]) ∧
    enrichAppointment demoAppointment
      = { demoAppointment with doctor_name := some "Unknown" } :=
  ⟨(appointment_doctor_enrichment_fallback apptEnv "u1" [] [demoAppointment]
      rfl).1,
   (appointment_doctor_enrichment_fallback apptEnv "u1" [] [demoAppointment]
      rfl).2.1 demoAppointment rfl⟩

theorem classifier_degradation_amended_witness :
    recognize_intent
      (.payload (some "order_pizza") (some [("patient_id", .pstr (some "p1"))]))
      = .ok (.unknown, [("patient_id", PVal.pstr (some "p1"))]) :=
  classifier_degradation_amended.2.2.1 "order_pizza"
    (some [("patient_id", PVal.pstr (some "p1"))]) rfl

end ClinicAgent
